import Mathlib

/-!
Shallow embedding of the vscode-terraform extension core:
the language-client supervisor in `src/extension.ts` (initialization-failure
handler and crash/restart `closed` handler) and the Terraform Cloud tree data
providers in `src/providers/terraformCloudProvider.ts`.

Conventions of the embedding:
* JavaScript async functions are modelled as `Except String α` values: a
  resolved promise is `Except.ok`, a rejected promise is `Except.error`.
  A `try`/`catch` that wraps a call to an async function *without* `await`
  cannot observe the promise rejection (calling an async function never
  throws synchronously), so such a `catch` is dead code and the rejection
  propagates to the caller; the embedding reflects that JS semantics.
* Module-level mutable variables (`initializationError`, `crashCount`) become
  fields of an explicit state record threaded through the handlers.
* `vscode.EventEmitter.fire` calls are counted (the `Nat` component of the
  results of `refresh`).
* Output-channel `appendLine` calls are collected as a `List String`.
-/

/-- `CloseAction` from vscode-languageclient: what the client should do after
the connection to the server closed. -/
inductive CloseAction where
  | DoNotRestart
  | Restart
deriving DecidableEq, Repr

/-- `ErrorAction` from vscode-languageclient. -/
inductive ErrorAction where
  | Continue
  | Shutdown
deriving DecidableEq, Repr

/-- Structured error value delivered to the handlers
(`ResponseError<InitializeError> | Error`); only its message is relevant to
the embedded logic. -/
structure ResponseError where
  message : String
deriving DecidableEq, Repr

/-- The module-scoped mutable state of `src/extension.ts`:
`let initializationError : ResponseError<InitializeError> | undefined = undefined;`
and `let crashCount = 0;`. -/
structure ExtState where
  initializationError : Option ResponseError
  crashCount : Nat
deriving DecidableEq, Repr

/-- State at module load: no initialization error recorded, crash counter 0. -/
def initialExtState : ExtState :=
  { initializationError := none, crashCount := 0 }

/-- Result record returned by the `closed` error handler: an optional
`message` and a `CloseAction`. -/
structure CloseResult where
  message : Option String
  action : CloseAction
deriving DecidableEq, Repr

/-- The generic failure message logged and returned once the restart budget is
exhausted (`src/extension.ts` lines 97 and 175-179). -/
def genericFailureMsg : String :=
  "Failure to start terraform-ls. Please check your configuration settings and reload this window"

/-- The `closed()` member of `clientOptions.errorHandler`
(`src/extension.ts` lines 149-182). Returns the updated module state, the
output-channel lines appended, and the `CloseResult` handed to the client. -/
def closed (s : ExtState) : ExtState × List String × CloseResult :=
  match s.initializationError with
  | some _ =>
    (s, ["Initialization error handled by handler"],
      { message := some "", action := CloseAction.DoNotRestart })
  | none =>
    let s' : ExtState := { s with crashCount := s.crashCount + 1 }
    if s'.crashCount ≤ 1 then
      (s', ["Server has failed. Restarting"],
        { message := none, action := CloseAction.Restart })
    else
      (s', [genericFailureMsg],
        { message := some genericFailureMsg, action := CloseAction.DoNotRestart })

/-- The `error(error, message, count)` member of `clientOptions.errorHandler`
(`src/extension.ts` lines 143-148): always classifies the transport error as a
shutdown, never retries at this layer. -/
def errorHandlerError (err : ResponseError) (jsonrpc : String) (count : Nat) :
    String × ErrorAction :=
  ("Terraform LS connection error: (" ++ toString count ++ ")\n" ++ err.message
      ++ "\n" ++ jsonrpc,
    ErrorAction.Shutdown)

/-- The sequence of `CloseResult`s produced by `n` successive unexpected
close events starting from state `s`, threading the module state through. -/
def closedTrace : ExtState → Nat → List CloseResult
  | _, 0 => []
  | s, n + 1 =>
    let r := closed s
    r.2.2 :: closedTrace r.1 n

/-- The result the `closed` handler returns on the permitted restart. -/
def restartCloseResult : CloseResult :=
  { message := none, action := CloseAction.Restart }

/-- The result the `closed` handler returns once the restart budget is spent. -/
def stopCloseResult : CloseResult :=
  { message := some genericFailureMsg, action := CloseAction.DoNotRestart }

/-- Result of a `vscode.window.showErrorMessage` call: the message text, the
`modal`/`detail` options, and the offered item titles. -/
structure ErrorNotification where
  message : String
  detail : String
  modal : Bool
  items : List String
deriving DecidableEq, Repr

/-- Observable effects of the initialization-failure handler: the error
recorded into the pending slot, the telemetry exception events emitted, the
output-channel lines appended, the notification shown, and the boolean the
handler returns to the client. -/
structure InitFailureEffects where
  recordedError : Option ResponseError
  telemetryExceptions : List ResponseError
  logLines : List String
  notification : ErrorNotification
  returnValue : Bool
deriving DecidableEq, Repr

/-- The message shown when the configured server arguments do not start with
the `serve` verb (`src/extension.ts` lines 100-103). -/
def serveArgMsg : String :=
  "You need at least a \"serve\" argument in the `terraform.languageServer.args` setting. Please check your configuration settings and reload this window"

/-- The `clientOptions.initializationFailedHandler`
(`src/extension.ts` lines 92-140). `serverArgs` is the value of the
`terraform.languageServer.args` setting (default `[]`); the handler records
the error, emits a telemetry exception, logs and shows a non-modal error
notification with three choices, and returns `false`. -/
def initializationFailedHandler (serverArgs : List String) (error : ResponseError)
    (s : ExtState) : ExtState × InitFailureEffects :=
  let s' : ExtState := { s with initializationError := some error }
  let msg := if serverArgs.head? = some "serve" then genericFailureMsg else serveArgMsg
  (s',
    { recordedError := some error,
      telemetryExceptions := [error],
      logLines := [msg],
      notification :=
        { message := msg, detail := "", modal := false,
          items := ["Open Settings", "Open Logs", "More Info"] },
      returnValue := false })

/-- A vscode `Memento` (key/value store), as used for
`ctx.workspaceState` and `ctx.globalState`. -/
structure Memento where
  lookup : String → Option String

/-- `Memento.get(key, defaultValue)`. -/
def Memento.get (m : Memento) (key default : String) : String :=
  (m.lookup key).getD default

/-- `Memento.update(key, value)`. -/
def Memento.update (m : Memento) (key value : String) : Memento :=
  ⟨fun k => if k = key then some value else m.lookup k⟩

/-- A memento with no stored keys. -/
def emptyMemento : Memento :=
  ⟨fun _ => none⟩

/-- The slice of `vscode.ExtensionContext` the providers use: the
workspace-scoped and the application-scoped (global) key/value stores. -/
structure ExtensionContext where
  workspaceState : Memento
  globalState : Memento

/-- The key under which the chosen organization is stored. -/
def organizationKey : String := "terraform.cloud.organization"

/-- One record of a `listWorkspaces` response: `id` plus `attributes.name`. -/
structure WorkspaceRecord where
  id : String
  name : String
deriving DecidableEq, Repr

/-- One record of a `listRuns` response: `id` plus `attributes.message`. -/
structure RunRecord where
  id : String
  message : String
deriving DecidableEq, Repr

/-- The request issued by `apiClient.listWorkspaces`: the `organization_name`
path parameter, and the optional `filter[project][id]` query (present exactly
when the provider passes a `queries` object). -/
structure ListWorkspacesRequest where
  organization_name : String
  projectFilterID : Option String
deriving DecidableEq, Repr

/-- The request issued by `apiClient.listRuns`: the `workspace_id` path
parameter. -/
structure ListRunsRequest where
  workspace_id : String
deriving DecidableEq, Repr

/-- The remote API client as consumed by the providers. Each call returns a
resolved (`Except.ok`) or rejected (`Except.error`) promise. -/
structure ApiClient where
  listWorkspaces : ListWorkspacesRequest → Except String (List WorkspaceRecord)
  listRuns : ListRunsRequest → Except String (List RunRecord)

/-- A `WorkspaceTreeItem(name, id)`: label is the workspace name, `id` is the
workspace ID. -/
structure WorkspaceTreeItem where
  name : String
  id : String
deriving DecidableEq, Repr

/-- A `RunTreeItem(name, id, url)`: label is the run message, plus the run ID
and the derived browsable URL. -/
structure RunTreeItem where
  name : String
  id : String
  url : String
deriving DecidableEq, Repr

/-- Mutable state of `WorkspaceTreeDataProvider`: the current project filter
(`private projectID = ''`, empty string meaning unfiltered). The
`ExtensionContext` field of the class is shared state and is passed explicitly
to the methods here. -/
structure WorkspaceTreeDataProvider where
  projectID : String
deriving DecidableEq, Repr

/-- Mutable state of `RunTreeDataProvider`: the currently selected workspace
(`private workspace: WorkspaceTreeItem | undefined`, initially unset). -/
structure RunTreeDataProvider where
  workspace : Option WorkspaceTreeItem
deriving DecidableEq, Repr

/-- `WorkspaceTreeDataProvider.refresh(projectID?)`
(`src/providers/terraformCloudProvider.ts` lines 169-172):
`this.projectID = projectID ?? ''` then fire one change event. Returns the
new provider state and the number of change events fired. -/
def WorkspaceTreeDataProvider.refresh (self : WorkspaceTreeDataProvider)
    (projectID : Option String) : WorkspaceTreeDataProvider × Nat :=
  ({ self with projectID := projectID.getD "" }, 1)

/-- `WorkspaceTreeDataProvider.getWorkspaces(organization)`
(`src/providers/terraformCloudProvider.ts` lines 191-220): issues one
`listWorkspaces` call — with the `filter[project][id]` query exactly when
`this.projectID !== ''` — and maps each response record to a
`WorkspaceTreeItem(attributes.name, id)`. Returns the requests issued and the
promise outcome. -/
def WorkspaceTreeDataProvider.getWorkspaces (self : WorkspaceTreeDataProvider)
    (api : ApiClient) (organization : String) :
    List ListWorkspacesRequest × Except String (List WorkspaceTreeItem) :=
  if self.projectID ≠ "" then
    let req : ListWorkspacesRequest :=
      { organization_name := organization, projectFilterID := some self.projectID }
    ([req], (api.listWorkspaces req).map
      (List.map fun w => { name := w.name, id := w.id }))
  else
    let req : ListWorkspacesRequest :=
      { organization_name := organization, projectFilterID := none }
    ([req], (api.listWorkspaces req).map
      (List.map fun w => { name := w.name, id := w.id }))

/-- `WorkspaceTreeDataProvider.getChildren(element?)`
(`src/providers/terraformCloudProvider.ts` lines 178-189): reads the
organization from `ctx.globalState` (default `''`); if it is empty, returns
`[]` without any fetch. Otherwise it returns the promise produced by
`this.getWorkspaces(organization)`. The source wraps that call in
`try`/`catch`, but `getWorkspaces` is an async method called without `await`:
calling it never throws synchronously, so the `catch` is unreachable and a
rejected promise propagates to the caller unchanged. The ignored optional
`element` parameter is dropped. -/
def WorkspaceTreeDataProvider.getChildren (self : WorkspaceTreeDataProvider)
    (api : ApiClient) (ctx : ExtensionContext) :
    List ListWorkspacesRequest × Except String (List WorkspaceTreeItem) :=
  let organization := ctx.globalState.get organizationKey ""
  if organization = "" then
    ([], Except.ok [])
  else
    self.getWorkspaces api organization

/-- `RunTreeDataProvider.refresh(workspace?)`
(`src/providers/terraformCloudProvider.ts` lines 247-252): updates the
current workspace only when the argument is present (`if (workspace)` — a
passed object is always truthy, an omitted argument is `undefined` and
falsy), then fires one change event. -/
def RunTreeDataProvider.refresh (self : RunTreeDataProvider)
    (workspace : Option WorkspaceTreeItem) : RunTreeDataProvider × Nat :=
  (match workspace with
    | some w => { workspace := some w }
    | none => self,
   1)

/-- `RunTreeDataProvider.getRuns(workspace)`
(`src/providers/terraformCloudProvider.ts` lines 270-290): reads the
organization from `ctx.globalState`, issues one `listRuns` call with
`workspace_id` = the workspace's ID, and maps each record to a
`RunTreeItem(attributes.message, id, url)` with the derived URL. -/
def RunTreeDataProvider.getRuns (api : ApiClient) (ctx : ExtensionContext)
    (workspace : WorkspaceTreeItem) :
    List ListRunsRequest × Except String (List RunTreeItem) :=
  let organization := ctx.globalState.get organizationKey ""
  let req : ListRunsRequest := { workspace_id := workspace.id }
  ([req], (api.listRuns req).map
    (List.map fun r =>
      { name := r.message, id := r.id,
        url := "https://app.staging.terraform.io/app/" ++ organization
          ++ "/workspaces/" ++ workspace.name ++ "/runs/" ++ r.id }))

/-- `RunTreeDataProvider.getChildren(element?)`
(`src/providers/terraformCloudProvider.ts` lines 258-268): returns `[]`
until a workspace is selected; otherwise returns the promise produced by
`this.getRuns(this.workspace)`. As in the workspace provider, the
`try`/`catch` wraps a non-awaited async call and cannot catch its rejection,
so a rejected promise propagates. The ignored optional `element` parameter is
dropped. -/
def RunTreeDataProvider.getChildren (self : RunTreeDataProvider)
    (api : ApiClient) (ctx : ExtensionContext) :
    List ListRunsRequest × Except String (List RunTreeItem) :=
  match self.workspace with
  | none => ([], Except.ok [])
  | some w => RunTreeDataProvider.getRuns api ctx w

/-- Effect of line 30 of the `TerraformCloudFeature` constructor
(`src/providers/terraformCloudProvider.ts`): the organization restored into
the status bar at activation is read from `ctx.workspaceState`. -/
def initialStatusBarOrg (ctx : ExtensionContext) : String :=
  ctx.workspaceState.get organizationKey ""

/-- Effect of choosing `answer` in the `terraform.cloud.organization.picker`
command (`src/providers/terraformCloudProvider.ts` lines 58-62): the status
bar text is set to `answer` and the name is stored via
`ctx.globalState.update('terraform.cloud.organization', answer)`. Returns the
updated context and the status bar text. -/
def organizationPickerChoose (ctx : ExtensionContext) (answer : String) :
    ExtensionContext × String :=
  ({ ctx with globalState := ctx.globalState.update organizationKey answer },
   answer)

/-- The `terraform.cloud.workspaces.listAll` command
(`src/providers/terraformCloudProvider.ts` lines 145-157):
`this.projectID = ''`, then `this.refresh()`, then
`this.runDataProvider.refresh()`. Returns both new provider states and the
change events fired by each. -/
def listAllWorkspacesCommand (wp : WorkspaceTreeDataProvider)
    (rp : RunTreeDataProvider) :
    WorkspaceTreeDataProvider × RunTreeDataProvider × Nat × Nat :=
  let wp1 : WorkspaceTreeDataProvider := { wp with projectID := "" }
  let wr := wp1.refresh none
  let rr := rp.refresh none
  (wr.1, rr.1, wr.2, rr.2)

/-- The `terraform.cloud.runs.refresh` command
(`src/providers/terraformCloudProvider.ts` line 239): `() => this.refresh()`. -/
def runsRefreshCommand (self : RunTreeDataProvider) : RunTreeDataProvider × Nat :=
  self.refresh none

/-- An extension context with nothing stored in either memento. -/
def emptyCtx : ExtensionContext :=
  { workspaceState := emptyMemento, globalState := emptyMemento }

/-- An extension context whose global state holds organization `acme`. -/
def ctxAcme : ExtensionContext :=
  { workspaceState := emptyMemento,
    globalState := emptyMemento.update organizationKey "acme" }

/-- An API client whose every call rejects with a network error. -/
def failingApi : ApiClient :=
  { listWorkspaces := fun _ => Except.error "network error",
    listRuns := fun _ => Except.error "network error" }

/-- An API client whose every call resolves with one fixed record. -/
def okApi : ApiClient :=
  { listWorkspaces := fun _ => Except.ok [{ id := "ws-1", name := "web" }],
    listRuns := fun _ => Except.ok [{ id := "run-1", message := "initial plan" }] }

/-- Helper: one close event with the crash counter already at least 1 and no
initialization error recorded yields the generic stop result. -/
theorem closed_of_crashed (c : Nat) (hc : 1 ≤ c) :
    closed { initializationError := none, crashCount := c }
      = ({ initializationError := none, crashCount := c + 1 },
         [genericFailureMsg], stopCloseResult) := by
  have hlt : ¬ (c + 1 ≤ 1) := by omega
  simp [closed, hlt, stopCloseResult]

/-- Helper: once the crash counter is at least 1 and no initialization error
is recorded, every further close yields the generic stop result. -/
theorem closedTrace_after_first (n : Nat) :
    ∀ c : Nat, 1 ≤ c →
      closedTrace { initializationError := none, crashCount := c } n
        = List.replicate n stopCloseResult := by
  induction n with
  | zero => intro c _; rfl
  | succ n ih =>
    intro c hc
    simp only [closedTrace, closed_of_crashed c hc, List.replicate_succ]
    exact congrArg (List.cons stopCloseResult) (ih (c + 1) (by omega))

/-- C1: for every sequence of unexpected close events with no initialization
error recorded, the `closed()` handler returns a Restart action exactly once —
on the first close, after incrementing the crash counter to 1 — and on every
later close returns DoNotRestart together with the generic failure message. -/
theorem supervisor_restarts_exactly_once (n : Nat) :
    closedTrace initialExtState (n + 1)
        = restartCloseResult :: List.replicate n stopCloseResult
    ∧ (closed initialExtState).1.crashCount = 1
    ∧ (closed initialExtState).2.2 = restartCloseResult := by
  refine ⟨?_, rfl, rfl⟩
  simp only [closedTrace, initialExtState]
  exact congrArg (List.cons restartCloseResult) (closedTrace_after_first n 1 le_rfl)

/-- C2: once an initialization error is recorded, the `closed()` handler
never restarts: it returns DoNotRestart with an empty message regardless of
the crash counter, and leaves the state unchanged. -/
theorem supervisor_no_restart_after_init_error (e : ResponseError) (c : Nat) :
    closed { initializationError := some e, crashCount := c }
        = ({ initializationError := some e, crashCount := c },
           ["Initialization error handled by handler"],
           { message := some "", action := CloseAction.DoNotRestart })
    ∧ (closed { initializationError := some e, crashCount := c }).2.2.action
        ≠ CloseAction.Restart := by
  exact ⟨rfl, fun h => nomatch h⟩

/-- C8: for every error and every configured server-argument list, the
initialization-failure handler records the error in the pending slot, emits
exactly one telemetry exception event for it, shows a non-modal error
notification offering exactly the choices Open Settings, Open Logs and
More Info, and returns `false`. -/
theorem init_failed_handler_effects (serverArgs : List String)
    (error : ResponseError) (s : ExtState) :
    (initializationFailedHandler serverArgs error s).1.initializationError = some error
    ∧ (initializationFailedHandler serverArgs error s).2.recordedError = some error
    ∧ (initializationFailedHandler serverArgs error s).2.telemetryExceptions = [error]
    ∧ (initializationFailedHandler serverArgs error s).2.notification.modal = false
    ∧ (initializationFailedHandler serverArgs error s).2.notification.items
        = ["Open Settings", "Open Logs", "More Info"]
    ∧ (initializationFailedHandler serverArgs error s).2.returnValue = false :=
  ⟨rfl, rfl, rfl, rfl, rfl, rfl⟩

/-- C3 (divergence witness): with organization `acme` selected and an API
whose fetches reject, `WorkspaceTreeDataProvider.getChildren` and
`RunTreeDataProvider.getChildren` both yield the rejected promise — not an
empty list — because the `try`/`catch` wraps a non-awaited async call. -/
theorem tree_fetch_failure_propagates_rejection :
    ((WorkspaceTreeDataProvider.mk "").getChildren failingApi ctxAcme).2
        = Except.error "network error"
    ∧ ((WorkspaceTreeDataProvider.mk "").getChildren failingApi ctxAcme).2
        ≠ Except.ok []
    ∧ ((RunTreeDataProvider.mk
          (some { name := "web", id := "ws-1" })).getChildren failingApi ctxAcme).2
        = Except.error "network error"
    ∧ ((RunTreeDataProvider.mk
          (some { name := "web", id := "ws-1" })).getChildren failingApi ctxAcme).2
        ≠ Except.ok [] := by
  have h1 : ((WorkspaceTreeDataProvider.mk "").getChildren failingApi ctxAcme).2
      = Except.error "network error" := rfl
  have h2 : ((RunTreeDataProvider.mk
        (some { name := "web", id := "ws-1" })).getChildren failingApi ctxAcme).2
      = Except.error "network error" := rfl
  refine ⟨h1, ?_, h2, ?_⟩
  · rw [h1]
    exact fun h => nomatch h
  · rw [h2]
    exact fun h => nomatch h

/-- C4: whenever the stored organization value is the empty string,
`WorkspaceTreeDataProvider.getChildren` returns an empty sequence and issues
no remote fetch, for every project filter and every API client. -/
theorem workspace_children_empty_without_org
    (self : WorkspaceTreeDataProvider) (api : ApiClient)
    (ctx : ExtensionContext)
    (h : ctx.globalState.get organizationKey "" = "") :
    self.getChildren api ctx = ([], Except.ok []) := by
  simp [WorkspaceTreeDataProvider.getChildren, h]

/-- Witness for C4 at a concrete input: empty stores, filter `prj-1`, the
rejecting API client. -/
theorem workspace_children_empty_without_org_witness :
    emptyCtx.globalState.get organizationKey "" = ""
    ∧ (WorkspaceTreeDataProvider.mk "prj-1").getChildren failingApi emptyCtx
        = ([], Except.ok []) :=
  ⟨rfl, workspace_children_empty_without_org (WorkspaceTreeDataProvider.mk "prj-1")
    failingApi emptyCtx rfl⟩

/-- C5: with an organization set, `refresh(projectID)` followed by
`getChildren()` issues exactly one `listWorkspaces` call carrying the
`organization_name` parameter and the `filter[project][id]` query equal to
that non-empty `projectID`; after `refresh()` with no argument the single
call carries the `organization_name` parameter and no project-filter query. -/
theorem workspace_refresh_sets_project_filter_query
    (self : WorkspaceTreeDataProvider) (api : ApiClient)
    (ctx : ExtensionContext) (pid : String)
    (hpid : pid ≠ "")
    (horg : ctx.globalState.get organizationKey "" ≠ "") :
    ((self.refresh (some pid)).1.getChildren api ctx).1
        = [{ organization_name := ctx.globalState.get organizationKey "",
             projectFilterID := some pid }]
    ∧ ((self.refresh none).1.getChildren api ctx).1
        = [{ organization_name := ctx.globalState.get organizationKey "",
             projectFilterID := none }] := by
  constructor
  · simp [WorkspaceTreeDataProvider.refresh, WorkspaceTreeDataProvider.getChildren,
      WorkspaceTreeDataProvider.getWorkspaces, horg, hpid]
  · simp [WorkspaceTreeDataProvider.refresh, WorkspaceTreeDataProvider.getChildren,
      WorkspaceTreeDataProvider.getWorkspaces, horg]

/-- Witness for C5 at a concrete input: organization `acme`, project
`prj-123`. -/
theorem workspace_refresh_sets_project_filter_query_witness :
    ("prj-123" ≠ "" ∧ ctxAcme.globalState.get organizationKey "" ≠ "")
    ∧ (((WorkspaceTreeDataProvider.mk "").refresh
          (some "prj-123")).1.getChildren okApi ctxAcme).1
        = [{ organization_name := ctxAcme.globalState.get organizationKey "",
             projectFilterID := some "prj-123" }]
    ∧ (((WorkspaceTreeDataProvider.mk "").refresh none).1.getChildren okApi ctxAcme).1
        = [{ organization_name := ctxAcme.globalState.get organizationKey "",
             projectFilterID := none }] :=
  ⟨⟨by decide, by decide⟩,
    workspace_refresh_sets_project_filter_query (WorkspaceTreeDataProvider.mk "")
      okApi ctxAcme "prj-123" (by decide) (by decide)⟩

/-- C6: after `RunTreeDataProvider.refresh(W)`, the children fetch issues
exactly one `listRuns` call with `workspace_id` = W's id, and when the API
resolves with records `rs`, every produced item carries the URL
`https://app.staging.terraform.io/app/<org>/workspaces/<W.name>/runs/<R.id>`
where `<org>` is the current organization value. -/
theorem run_children_request_and_url (self : RunTreeDataProvider)
    (api : ApiClient) (ctx : ExtensionContext) (W : WorkspaceTreeItem)
    (rs : List RunRecord)
    (h : api.listRuns { workspace_id := W.id } = Except.ok rs) :
    (((self.refresh (some W)).1.getChildren api ctx)).1
        = [{ workspace_id := W.id }]
    ∧ (((self.refresh (some W)).1.getChildren api ctx)).2
        = Except.ok (rs.map fun r =>
            { name := r.message, id := r.id,
              url := "https://app.staging.terraform.io/app/"
                ++ ctx.globalState.get organizationKey ""
                ++ "/workspaces/" ++ W.name ++ "/runs/" ++ r.id }) := by
  constructor
  · rfl
  · simp [RunTreeDataProvider.refresh, RunTreeDataProvider.getChildren,
      RunTreeDataProvider.getRuns, h, Except.map]

/-- Witness for C6 at a concrete input: organization `acme`, workspace
`web`/`ws-1`, one run `run-1`. -/
theorem run_children_request_and_url_witness :
    okApi.listRuns { workspace_id := "ws-1" }
        = Except.ok [{ id := "run-1", message := "initial plan" }]
    ∧ ((((RunTreeDataProvider.mk none).refresh
          (some { name := "web", id := "ws-1" })).1.getChildren okApi ctxAcme)).1
        = [{ workspace_id := "ws-1" }]
    ∧ ((((RunTreeDataProvider.mk none).refresh
          (some { name := "web", id := "ws-1" })).1.getChildren okApi ctxAcme)).2
        = Except.ok (([{ id := "run-1", message := "initial plan" }] :
              List RunRecord).map fun r =>
            { name := r.message, id := r.id,
              url := "https://app.staging.terraform.io/app/"
                ++ ctxAcme.globalState.get organizationKey ""
                ++ "/workspaces/" ++ "web" ++ "/runs/" ++ r.id }) :=
  ⟨rfl, run_children_request_and_url (RunTreeDataProvider.mk none) okApi ctxAcme
    { name := "web", id := "ws-1" } [{ id := "run-1", message := "initial plan" }] rfl⟩

/-- C7 (divergence witness): choosing organization `acme` in the picker
stores it under the global (application-scoped) state, leaving the
workspace-scoped store untouched, so the status-bar restore read — which
uses `ctx.workspaceState` — still sees the empty string, while the providers
read the stored value from `ctx.globalState`. -/
theorem organization_persisted_in_global_state :
    (organizationPickerChoose emptyCtx "acme").1.globalState.get organizationKey ""
        = "acme"
    ∧ (organizationPickerChoose emptyCtx "acme").1.workspaceState.get organizationKey ""
        = ""
    ∧ initialStatusBarOrg (organizationPickerChoose emptyCtx "acme").1 = ""
    ∧ initialStatusBarOrg (organizationPickerChoose emptyCtx "acme").1 ≠ "acme" := by
  refine ⟨by decide, rfl, rfl, by decide⟩

/-- C9: `WorkspaceTreeDataProvider.refresh()` with no argument resets the
project filter to the empty string rather than preserving the previous one,
and the list-all-workspaces command leaves the filter empty while firing one
change event on each provider. -/
theorem workspace_refresh_resets_filter (self : WorkspaceTreeDataProvider)
    (rp : RunTreeDataProvider) :
    (self.refresh none).1.projectID = ""
    ∧ (listAllWorkspacesCommand self rp).1.projectID = ""
    ∧ (listAllWorkspacesCommand self rp).2.2 = (1, 1) :=
  ⟨rfl, rfl, rfl⟩

/-- C10: `RunTreeDataProvider.refresh()` with no argument leaves the current
workspace selection (indeed the whole provider state) unchanged and fires
exactly one change event, so a plain run-view refresh re-fetches runs for the
previously selected workspace: `getChildren` gives the same result before and
after. -/
theorem run_refresh_keeps_workspace (self : RunTreeDataProvider)
    (api : ApiClient) (ctx : ExtensionContext) :
    self.refresh none = (self, 1)
    ∧ runsRefreshCommand self = (self, 1)
    ∧ ((self.refresh none).1.getChildren api ctx) = self.getChildren api ctx :=
  ⟨rfl, rfl, rfl⟩
